import Mathlib

/-!
Verification of `scripts/generate-hero-image.py`: a CLI tool that requests an
AI-generated image from an HTTP API, decodes the base64 payload, and saves it
in a chosen format (PNG / WEBP / JPEG) at a resolved output path.

The Python source is shallowly embedded below.  Images are modelled at the
pixel level (the base64 transport and the byte-level codecs of the PIL library
are external to the repository); the process' observable behaviour is modelled
as a list of effects (HTTP posts, file writes) together with an optional exit
code.
-/

namespace HeroImage

/-- One pixel, four 8-bit channels (the alpha channel is 255 for RGB images). -/
structure Pixel where
  r : Nat
  g : Nat
  b : Nat
  a : Nat
deriving DecidableEq, Repr

/-- PIL image mode; only `RGBA` is tested by the script (`image.mode == "RGBA"`). -/
inductive Mode where
  | RGB
  | RGBA
  | other (s : String)
deriving DecidableEq, Repr

/-- An in-memory decoded image (the result of `Image.open(BytesIO(...))`). -/
structure Image where
  mode : Mode
  width : Nat
  height : Nat
  pixels : List Pixel
deriving DecidableEq, Repr

/-- PIL blend used by `paste` with an 8-bit mask: source over background. -/
def blend (src bg alpha : Nat) : Nat :=
  (src * alpha + bg * (255 - alpha) + 127) / 255

/-- Lines 45-47: `Image.new("RGB", image.size, (255, 255, 255))` followed by
`rgb_image.paste(image, mask=image.split()[3])` — composite onto a white
background using the alpha channel as mask; the result is an RGB image. -/
def compositeOnWhite (img : Image) : Image :=
  { mode := Mode.RGB
    width := img.width
    height := img.height
    pixels := img.pixels.map (fun p =>
      { r := blend p.r 255 p.a, g := blend p.g 255 p.a, b := blend p.b 255 p.a
        a := 255 }) }

/-- The file write performed by `image.save(...)`: the path, the encoder
format identifier, the optional `quality=` and `method=` keyword arguments,
and the (possibly converted) image handed to the encoder. -/
structure SavedFile where
  path : String
  format : String
  quality : Option Nat
  method : Option Nat
  image : Image
deriving DecidableEq, Repr

/-- ASCII lowercasing, `str.lower()` (structural, so the kernel can evaluate
it; the format strings the script compares are ASCII). -/
def lower (s : String) : String :=
  String.mk (s.data.map Char.toLower)

/-- ASCII uppercasing, `str.upper()`. -/
def upper (s : String) : String :=
  String.mk (s.data.map Char.toUpper)

/-- Split a character list on `/` (the separator of POSIX path components). -/
def splitSlash : List Char → List (List Char)
  | [] => [[]]
  | c :: rest =>
    let r := splitSlash rest
    if c = '/' then [] :: r
    else
      match r with
      | [] => [[c]]
      | h :: t => (c :: h) :: t

/-- The last path component (`pathlib.PurePath.name`): the final part after
splitting on `/`, with empty and `.` components dropped. -/
def path_name (p : String) : List Char :=
  (((splitSlash p.data).filter (fun s => s ≠ [] ∧ s ≠ ['.'])).getLast?).getD []

/-- Index of the last `.` in a list of characters (Python `str.rfind`). -/
def rfindDot (cs : List Char) : Option Nat :=
  match (cs.enum.filter (fun q => q.2 = '.')).getLast? with
  | some iq => some iq.1
  | none => none

/-- `pathlib.PurePath.suffix`: the extension of the last component including
the leading dot; empty when the dot is first, last, or absent. -/
def path_suffix (p : String) : String :=
  let cs := path_name p
  match rfindDot cs with
  | some i => if 0 < i ∧ i < cs.length - 1 then String.mk (cs.drop i) else ""
  | none => ""

/-- `Path(output_path).suffix[1:].lower()` (lines 36 and 100). -/
def ext_of (p : String) : String :=
  lower (String.mk ((path_suffix p).data.drop 1))

/-- Lines 35-36 / 99-100: the target format is the explicit parameter when
given, otherwise the lowercased extension, defaulting to `"png"` when empty. -/
def resolved_format (output_path : String) (output_format : Option String) : String :=
  match output_format with
  | some f => f
  | none => if ext_of output_path = "" then "png" else ext_of output_path

/-- Lines 30-53 of `decode_and_save_image` (the base64 decode is abstracted:
the argument `image` is the decoded payload).  The function dispatches on the
resolved format: WEBP with `quality` and `method=6`; JPEG with RGBA flattened
onto white; anything else saved with the uppercased format name and no
quality parameter. -/
def decode_and_save_image (image : Image) (output_path : String)
    (output_format : Option String) (quality : Nat) : SavedFile :=
  let fmt := resolved_format output_path output_format
  if lower fmt = "webp" then
    { path := output_path, format := "WEBP", quality := some quality
      method := some 6, image := image }
  else if lower fmt = "jpg" ∨ lower fmt = "jpeg" then
    let image2 := if image.mode = Mode.RGBA then compositeOnWhite image else image
    { path := output_path, format := "JPEG", quality := some quality
      method := none, image := image2 }
  else
    { path := output_path, format := upper fmt, quality := none
      method := none, image := image }

/-- Lines 104-110: the quality map and `quality_map.get(quality.lower(), 95)`. -/
def quality_map : List (String × Nat) :=
  [("low", 70), ("medium", 85), ("high", 95), ("auto", 95)]

/-- Line 110: `conversion_quality = quality_map.get(quality.lower(), 95)`. -/
def conversion_quality (quality : String) : Nat :=
  (quality_map.lookup (lower quality)).getD 95

/-- Lines 61-67: the JSON request body.  `n` and `output_format` are literals
(`1` and `"png"`); the body does not depend on the desired file format. -/
structure GenerationBody where
  prompt : String
  n : Nat
  size : String
  quality : String
  output_format : String
deriving DecidableEq, Repr

def generation_body (prompt size quality : String) : GenerationBody :=
  { prompt := prompt, n := 1, size := size, quality := quality
    output_format := "png" }

/-- One element of the response list, holding the decoded payload (field
`b64_json`; the base64 transport is abstracted to the image it encodes). -/
structure ResponseItem where
  b64_json : Image
deriving DecidableEq, Repr

/-- The parsed JSON response body: `data` is `none` when the key is absent. -/
structure ApiResponse where
  data : Option (List ResponseItem)
deriving DecidableEq, Repr

/-- Outcome of the HTTP POST: a `requests` exception (transport or HTTP error
status, lines 84-92) or a parsed JSON body. -/
inductive ApiResult where
  | requestError
  | success (resp : ApiResponse)
deriving DecidableEq, Repr

/-- Externally observable side effects of a run: HTTP posts and file writes. -/
inductive Effect where
  | post (body : GenerationBody)
  | write (file : SavedFile)
deriving DecidableEq, Repr

/-- Result of (part of) a run: the effects in order, the exit code when
`sys.exit` fired, and the value returned on the success path. -/
structure RunResult where
  effects : List Effect
  exitCode : Option Nat
  result : Option SavedFile
deriving DecidableEq, Repr

/-- Lines 55-117, `generate_image`: build the body, POST it (`api` models the
network), exit 1 on a request error or a missing/empty `data` list, otherwise
resolve the format, map the quality, and save the first image. -/
def generate_image (api : GenerationBody → ApiResult)
    (prompt output_path size quality : String)
    (output_format : Option String) : RunResult :=
  let body := generation_body prompt size quality
  match api body with
  | ApiResult.requestError => ⟨[Effect.post body], some 1, none⟩
  | ApiResult.success resp =>
    match resp.data with
    | none => ⟨[Effect.post body], some 1, none⟩
    | some [] => ⟨[Effect.post body], some 1, none⟩
    | some (item :: _) =>
      let fmt := resolved_format output_path output_format
      let saved := decode_and_save_image item.b64_json output_path (some fmt)
        (conversion_quality quality)
      ⟨[Effect.post body, Effect.write saved], none, some saved⟩

/-- Line 138/141: the conventional output path (relative to the project root;
`output_dir.mkdir` is a side effect on directories only). -/
def content_output_path (content_type slug : String) : String :=
  "public/images/webp/" ++ content_type ++ "/" ++ slug ++ ".webp"

/-- Lines 119-154, `generate_content_image`: delegate to `generate_image`
with the conventional path and no explicit format. -/
def generate_content_image (api : GenerationBody → ApiResult)
    (content_type slug prompt size quality : String) : RunResult :=
  generate_image api prompt (content_output_path content_type slug) size quality none

/-- Parsed command-line arguments; `none` models an argument not supplied. -/
structure Args where
  prompt : Option String
  output : Option String
  type : Option String
  slug : Option String
  size : String
  quality : String
deriving DecidableEq, Repr

/-- Python truthiness of an optional string: `None` and `""` are falsy. -/
def pythonTruthy (o : Option String) : Bool :=
  match o with
  | none => false
  | some s => !(s = "")

/-- Lines 210-252 of `main` after parsing: content-type mode when
`args.type and args.slug` is truthy, else custom-path mode; each mode exits 1
when its required fields are missing. -/
def main_run (api : GenerationBody → ApiResult) (args : Args) : RunResult :=
  if pythonTruthy args.type && pythonTruthy args.slug then
    if !pythonTruthy args.prompt then ⟨[], some 1, none⟩
    else
      generate_content_image api (args.type.getD "") (args.slug.getD "")
        (args.prompt.getD "") args.size args.quality
  else
    if !pythonTruthy args.prompt || !pythonTruthy args.output then ⟨[], some 1, none⟩
    else
      generate_image api (args.prompt.getD "") (args.output.getD "")
        args.size args.quality none

/-- The environment variables read at module import; only the key is checked. -/
structure Env where
  azure_openai_api_key : Option String
deriving DecidableEq, Repr

/-- Lines 24-28: `if not subscription_key: ... sys.exit(1)` at import time,
before any function runs. -/
def startup_check (env : Env) : Option Nat :=
  if pythonTruthy env.azure_openai_api_key then none else some 1

/-- The whole process: the module-level key check, then `main`.  When the
check fails the process exits with no effects at all (no network post). -/
def script_run (env : Env) (api : GenerationBody → ApiResult)
    (args : Args) : RunResult :=
  match startup_check env with
  | some c => ⟨[], some c, none⟩
  | none => main_run api args

/-- A PNG file on disk, holding the pixel data the encoder stored. -/
structure PNGFile where
  stored : Image
deriving DecidableEq, Repr

/-- Modelled from the spec: the PNG codec of the PIL library (not part of
this repository) is lossless — "Round-trip: encoding then decoding a PNG
payload through the save path must reproduce a pixel-identical image for the
PNG branch".  Encoding records the pixel data exactly. -/
def encodePNG (img : Image) : PNGFile :=
  ⟨img⟩

/-- Modelled from the spec: decoding a PNG file recovers the stored pixels. -/
def decodePNG (f : PNGFile) : Image :=
  f.stored

/-- One `argparse` argument declaration: its flag name, its `choices=` list
when present, and its `default=` value when present. -/
structure ArgumentSpec where
  flag : String
  choices : Option (List String)
  defaultVal : Option String
deriving DecidableEq, Repr

/-- Lines 197-201: `--size` has a default and help text only — no `choices`. -/
def size_argument : ArgumentSpec :=
  { flag := "--size", choices := none, defaultVal := some "1536x1024" }

/-- Lines 203-208: `--quality` with `choices=["low", "medium", "high", "auto"]`. -/
def quality_argument : ArgumentSpec :=
  { flag := "--quality", choices := some ["low", "medium", "high", "auto"]
    defaultVal := some "high" }

/-- Lines 186-190: `--type` with `choices=["tips", "guides", "news"]`. -/
def type_argument : ArgumentSpec :=
  { flag := "--type", choices := some ["tips", "guides", "news"]
    defaultVal := none }

/-- `argparse` validation of a supplied value: unconstrained when there is no
`choices` list, membership otherwise. -/
def parser_accepts (spec : ArgumentSpec) (v : String) : Bool :=
  match spec.choices with
  | none => true
  | some cs => decide (v ∈ cs)

/-- A two-pixel RGBA image used as a concrete decoded payload. -/
def sampleImage : Image :=
  ⟨Mode.RGBA, 2, 1, [⟨10, 20, 30, 128⟩, ⟨200, 100, 50, 255⟩]⟩

/-- A one-pixel RGB image (no alpha channel). -/
def rgbImage : Image :=
  ⟨Mode.RGB, 1, 1, [⟨1, 2, 3, 255⟩]⟩

/-- An API stub that always succeeds with one payload. -/
def sampleApi : GenerationBody → ApiResult :=
  fun _ => ApiResult.success ⟨some [⟨sampleImage⟩]⟩

/-- Every save writes to the path it was given. -/
lemma decode_and_save_image_path (image : Image) (p : String)
    (o : Option String) (q : Nat) :
    (decode_and_save_image image p o q).path = p := by
  simp only [decode_and_save_image]
  split
  · rfl
  · split <;> rfl

/-- In the WEBP and JPEG branches the `quality=` argument is the one given. -/
lemma decode_and_save_image_quality (image : Image) (p : String)
    (o : Option String) (q : Nat)
    (h : lower (resolved_format p o) = "webp" ∨ lower (resolved_format p o) = "jpg" ∨
      lower (resolved_format p o) = "jpeg") :
    (decode_and_save_image image p o q).quality = some q := by
  rcases h with h | h | h
  · simp only [decode_and_save_image, if_pos h]
  · have hw : ¬ lower (resolved_format p o) = "webp" := by rw [h]; decide
    simp only [decode_and_save_image, if_neg hw, if_pos (Or.inl h)]
  · have hw : ¬ lower (resolved_format p o) = "webp" := by rw [h]; decide
    simp only [decode_and_save_image, if_neg hw, if_pos (Or.inr h)]

/-- Every file written by `generate_image` is the save of some decoded
payload, at the given path, with the resolved format and mapped quality. -/
lemma generate_image_write_mem (api : GenerationBody → ApiResult)
    (prompt path size quality : String) (o : Option String) (f : SavedFile)
    (h : Effect.write f ∈ (generate_image api prompt path size quality o).effects) :
    ∃ img : Image, f = decode_and_save_image img path
      (some (resolved_format path o)) (conversion_quality quality) := by
  rcases hapi : api (generation_body prompt size quality) with _ | resp
  · simp only [generate_image, hapi] at h
    simp at h
  · rcases hdata : resp.data with _ | (_ | ⟨item, rest⟩)
    · simp only [generate_image, hapi, hdata] at h
      simp at h
    · simp only [generate_image, hapi, hdata] at h
      simp at h
    · simp only [generate_image, hapi, hdata] at h
      simp at h
      exact ⟨item.b64_json, h⟩

/-- Every body posted by `generate_image` is `generation_body`. -/
lemma generate_image_post_mem (api : GenerationBody → ApiResult)
    (prompt path size quality : String) (o : Option String) (b : GenerationBody)
    (h : Effect.post b ∈ (generate_image api prompt path size quality o).effects) :
    b = generation_body prompt size quality := by
  rcases hapi : api (generation_body prompt size quality) with _ | resp
  · simp only [generate_image, hapi] at h
    simpa using h
  · rcases hdata : resp.data with _ | (_ | ⟨item, rest⟩)
    · simp only [generate_image, hapi, hdata] at h
      simpa using h
    · simp only [generate_image, hapi, hdata] at h
      simpa using h
    · simp only [generate_image, hapi, hdata] at h
      simp at h
      exact h

/-- C1: for every generation-quality string, the numeric encoder quality
passed to the WEBP/JPEG save step is: "low" maps to 70, "medium" maps to 85,
and "high" or "auto" map to 95 (case-insensitively). -/
theorem quality_string_to_numeric_mapping (q : String) :
    (lower q = "low" → conversion_quality q = 70) ∧
    (lower q = "medium" → conversion_quality q = 85) ∧
    ((lower q = "high" ∨ lower q = "auto") → conversion_quality q = 95) ∧
    (∀ (api : GenerationBody → ApiResult) (prompt path size : String)
      (o : Option String) (f : SavedFile),
      Effect.write f ∈ (generate_image api prompt path size q o).effects →
      (lower (resolved_format path o) = "webp" ∨ lower (resolved_format path o) = "jpg" ∨
        lower (resolved_format path o) = "jpeg") →
      f.quality = some (conversion_quality q)) := by
  refine ⟨?_, ?_, ?_, ?_⟩
  · intro h
    unfold conversion_quality quality_map
    rw [h]
    rfl
  · intro h
    unfold conversion_quality quality_map
    rw [h]
    rfl
  · rintro (h | h) <;> · unfold conversion_quality quality_map; rw [h]; rfl
  · intro api prompt path size o f hmem hfmt
    obtain ⟨img, rfl⟩ := generate_image_write_mem api prompt path size q o f hmem
    exact decode_and_save_image_quality img path (some (resolved_format path o))
      (conversion_quality q) hfmt

/-- Witness for C1 at concrete inputs, including the quality actually handed
to a WEBP save inside a full `generate_image` run. -/
theorem quality_string_to_numeric_mapping_witness :
    conversion_quality "LOW" = 70 ∧ conversion_quality "Medium" = 85 ∧
    conversion_quality "AUTO" = 95 ∧
    (decode_and_save_image sampleImage "out.webp"
      (some (resolved_format "out.webp" none)) (conversion_quality "low")).quality =
      some (conversion_quality "low") := by
  refine ⟨(quality_string_to_numeric_mapping "LOW").1 (by decide),
    (quality_string_to_numeric_mapping "Medium").2.1 (by decide),
    (quality_string_to_numeric_mapping "AUTO").2.2.1 (Or.inr (by decide)), ?_⟩
  exact (quality_string_to_numeric_mapping "low").2.2.2 sampleApi "p" "out.webp"
    "1536x1024" none
    (decode_and_save_image sampleImage "out.webp"
      (some (resolved_format "out.webp" none)) (conversion_quality "low"))
    (by decide) (by decide)

/-- C2: when the target format resolves to jpg/jpeg, an RGBA source is
composited onto a white background using the alpha channel as mask before
encoding (so the saved JPEG image is RGB, without an alpha channel); a
non-RGBA source is saved directly with the quality parameter. -/
theorem jpeg_alpha_flattening (image : Image) (path : String)
    (o : Option String) (q : Nat)
    (h : lower (resolved_format path o) = "jpg" ∨ lower (resolved_format path o) = "jpeg") :
    (image.mode = Mode.RGBA →
      (decode_and_save_image image path o q).image = compositeOnWhite image ∧
      (decode_and_save_image image path o q).image.mode = Mode.RGB) ∧
    (image.mode ≠ Mode.RGBA →
      (decode_and_save_image image path o q).image = image) ∧
    (decode_and_save_image image path o q).format = "JPEG" ∧
    (decode_and_save_image image path o q).quality = some q := by
  have hw : ¬ lower (resolved_format path o) = "webp" := by
    rcases h with h | h <;> · rw [h]; decide
  simp only [decode_and_save_image, if_neg hw, if_pos h]
  refine ⟨fun hm => ?_, fun hm => ?_, by trivial, by trivial⟩
  · rw [if_pos hm]
    exact ⟨rfl, rfl⟩
  · rw [if_neg hm]

/-- Witness for C2: a concrete RGBA payload saved to `x.jpg` is flattened to
RGB, and a concrete RGB payload saved to `y.jpeg` is passed through. -/
theorem jpeg_alpha_flattening_witness :
    (decode_and_save_image sampleImage "x.jpg" none 80).image = compositeOnWhite sampleImage ∧
    (decode_and_save_image sampleImage "x.jpg" none 80).image.mode = Mode.RGB ∧
    (decode_and_save_image rgbImage "y.jpeg" none 90).image = rgbImage := by
  refine ⟨(jpeg_alpha_flattening sampleImage "x.jpg" none 80 (by decide)).1 (by decide) |>.1,
    (jpeg_alpha_flattening sampleImage "x.jpg" none 80 (by decide)).1 (by decide) |>.2,
    (jpeg_alpha_flattening rgbImage "y.jpeg" none 90 (by decide)).2.1 (by decide)⟩

/-- C4: when the response body lacks the `data` field, or its list is empty,
the run exits with status 1 and writes no file. -/
theorem missing_data_exits_without_write (resp : ApiResponse)
    (prompt path size quality : String) (o : Option String)
    (h : resp.data = none ∨ resp.data = some []) :
    (generate_image (fun _ => ApiResult.success resp) prompt path size quality o).exitCode
      = some 1 ∧
    ∀ f : SavedFile, Effect.write f ∉
      (generate_image (fun _ => ApiResult.success resp) prompt path size quality o).effects := by
  rcases h with h | h <;> · simp [generate_image, h]

/-- Witness for C4 on a concrete response with no `data` key. -/
theorem missing_data_exits_without_write_witness :
    (generate_image (fun _ => ApiResult.success ⟨none⟩) "p" "o.png" "1536x1024" "high" none).exitCode
      = some 1 ∧
    Effect.write (decode_and_save_image sampleImage "o.png" (some "png") 95) ∉
      (generate_image (fun _ => ApiResult.success ⟨none⟩) "p" "o.png" "1536x1024" "high" none).effects := by
  refine ⟨(missing_data_exits_without_write ⟨none⟩ "p" "o.png" "1536x1024" "high" none
    (Or.inl rfl)).1, ?_⟩
  exact (missing_data_exits_without_write ⟨none⟩ "p" "o.png" "1536x1024" "high" none
    (Or.inl rfl)).2 (decode_and_save_image sampleImage "o.png" (some "png") 95)

/-- C5: when the API key environment variable is absent the process exits
with status 1 at startup, with an empty effect list — in particular before
any network post. -/
theorem missing_api_key_exits_first (env : Env) (api : GenerationBody → ApiResult)
    (args : Args) (h : env.azure_openai_api_key = none) :
    (script_run env api args).exitCode = some 1 ∧ (script_run env api args).effects = [] := by
  simp [script_run, startup_check, pythonTruthy, h]

/-- Witness for C5 on a concrete empty environment. -/
theorem missing_api_key_exits_first_witness :
    (script_run ⟨none⟩ sampleApi ⟨some "p", some "o.png", none, none, "1536x1024", "high"⟩).exitCode
      = some 1 ∧
    (script_run ⟨none⟩ sampleApi ⟨some "p", some "o.png", none, none, "1536x1024", "high"⟩).effects
      = [] :=
  missing_api_key_exits_first ⟨none⟩ sampleApi
    ⟨some "p", some "o.png", none, none, "1536x1024", "high"⟩ rfl

/-- C6: every request body carries `n = 1` and `output_format = "png"`,
whatever the desired final file format. -/
theorem request_body_n_and_png (prompt size quality : String) :
    (generation_body prompt size quality).n = 1 ∧
    (generation_body prompt size quality).output_format = "png" ∧
    ∀ (api : GenerationBody → ApiResult) (path : String) (o : Option String)
      (b : GenerationBody),
      Effect.post b ∈ (generate_image api prompt path size quality o).effects →
      b.n = 1 ∧ b.output_format = "png" := by
  refine ⟨rfl, rfl, ?_⟩
  intro api path o b hb
  obtain rfl := generate_image_post_mem api prompt path size quality o b hb
  exact ⟨rfl, rfl⟩

/-- Witness for C6: the body actually posted in a concrete run (desired
format webp) still has `n = 1` and `output_format = "png"`. -/
theorem request_body_n_and_png_witness :
    (generation_body "p" "1536x1024" "low").n = 1 ∧
    (generation_body "p" "1536x1024" "low").output_format = "png" := by
  have h := (request_body_n_and_png "p" "1536x1024" "low").2.2 sampleApi "out.webp" none
    (generation_body "p" "1536x1024" "low") (by decide)
  exact h

set_option maxHeartbeats 1000000 in
/-- C3: with both `--type` and `--slug` set, the run is independent of the
positional output argument, and every file written goes to
`public/images/webp/{type}/{slug}.webp`. -/
theorem content_mode_output_path (api : GenerationBody → ApiResult) (args : Args)
    (ht : pythonTruthy args.type = true) (hs : pythonTruthy args.slug = true) :
    (∀ o : Option String, main_run api { args with output := o } = main_run api args) ∧
    (∀ f : SavedFile, Effect.write f ∈ (main_run api args).effects →
      f.path = content_output_path (args.type.getD "") (args.slug.getD "")) := by
  constructor
  · intro o
    simp [main_run, ht, hs]
  · intro f hf
    unfold main_run at hf
    rw [ht, hs] at hf
    by_cases hp : pythonTruthy args.prompt = true
    · rw [hp] at hf
      have hf2 : Effect.write f ∈ (generate_image api (args.prompt.getD "")
          (content_output_path (args.type.getD "") (args.slug.getD ""))
          args.size args.quality none).effects := hf
      obtain ⟨img, rfl⟩ := generate_image_write_mem api (args.prompt.getD "")
        (content_output_path (args.type.getD "") (args.slug.getD ""))
        args.size args.quality none f hf2
      exact decode_and_save_image_path img _ _ _
    · have hp2 : pythonTruthy args.prompt = false := by simpa using hp
      rw [hp2] at hf
      have hf2 : Effect.write f ∈ ([] : List Effect) := hf
      simp at hf2


/-- Witness for C3: concrete args with `--type tips --slug winter` and a
stray positional output; the written file lands at the conventional path. -/
theorem content_mode_output_path_witness :
    main_run sampleApi
        { prompt := some "p", output := some "other.jpg", type := some "tips"
          slug := some "winter", size := "1536x1024", quality := "high" } =
      main_run sampleApi
        { prompt := some "p", output := some "elsewhere.png", type := some "tips"
          slug := some "winter", size := "1536x1024", quality := "high" } ∧
    (decode_and_save_image sampleImage "public/images/webp/tips/winter.webp"
        (some "webp") 95).path = content_output_path "tips" "winter" := by
  constructor
  · exact (content_mode_output_path sampleApi
      { prompt := some "p", output := some "elsewhere.png", type := some "tips"
        slug := some "winter", size := "1536x1024", quality := "high" }
      (by decide) (by decide)).1 (some "other.jpg")
  · exact (content_mode_output_path sampleApi
      { prompt := some "p", output := some "elsewhere.png", type := some "tips"
        slug := some "winter", size := "1536x1024", quality := "high" }
      (by decide) (by decide)).2
      (decode_and_save_image sampleImage "public/images/webp/tips/winter.webp"
        (some "webp") 95) (by decide)

/-- C7 counterexample: the claim says both size and quality are constrained
by an enumerated choice list at the parser level, but `--size` is declared
with no `choices` — the parser accepts an arbitrary free-form size string. -/
theorem size_has_no_choice_list :
    size_argument.choices = none ∧
    parser_accepts size_argument "definitely-not-a-size" = true ∧
    quality_argument.choices = some ["low", "medium", "high", "auto"] :=
  ⟨rfl, rfl, rfl⟩

/-- C7 amended: only the quality value is constrained at the parser level by
the enumerated choice list low/medium/high/auto; the size value is free-form
(default "1536x1024") with no choice list; and neither undergoes any further
validation — both are passed through unchanged into the request body. -/
theorem argument_level_validation (p s q : String) :
    size_argument.choices = none ∧
    size_argument.defaultVal = some "1536x1024" ∧
    parser_accepts size_argument s = true ∧
    (parser_accepts quality_argument q = true ↔
      q = "low" ∨ q = "medium" ∨ q = "high" ∨ q = "auto") ∧
    (generation_body p s q).size = s ∧
    (generation_body p s q).quality = q := by
  refine ⟨rfl, rfl, rfl, ?_, rfl, rfl⟩
  simp [parser_accepts, quality_argument]

/-- C8: a target format that is neither webp nor jpg/jpeg is saved with the
uppercased format name and no quality parameter, the image untouched; the
format itself is the explicit parameter when given, else the lowercased
extension, else "png". -/
theorem other_format_save (image : Image) (path : String) (o : Option String) (q : Nat) :
    (lower (resolved_format path o) ≠ "webp" →
      lower (resolved_format path o) ≠ "jpg" →
      lower (resolved_format path o) ≠ "jpeg" →
      decode_and_save_image image path o q =
        { path := path, format := upper (resolved_format path o)
          quality := none, method := none, image := image }) ∧
    (∀ f : String, resolved_format path (some f) = f) ∧
    (ext_of path = "" → resolved_format path none = "png") ∧
    (ext_of path ≠ "" → resolved_format path none = ext_of path) := by
  refine ⟨?_, fun f => rfl, ?_, ?_⟩
  · intro h1 h2 h3
    have h23 : ¬ (lower (resolved_format path o) = "jpg" ∨
        lower (resolved_format path o) = "jpeg") := by
      rintro (hc | hc)
      · exact h2 hc
      · exact h3 hc
    simp only [decode_and_save_image, if_neg h1, if_neg h23]
  · intro h
    simp [resolved_format, h]
  · intro h
    simp [resolved_format, h]

/-- Witness for C8: a gif extension is saved as "GIF" with no quality; an
explicit format parameter wins; a path without extension defaults to png. -/
theorem other_format_save_witness :
    decode_and_save_image sampleImage "img.gif" none 95 =
      { path := "img.gif", format := upper (resolved_format "img.gif" none)
        quality := none, method := none, image := sampleImage } ∧
    resolved_format "whatever" (some "TIFF") = "TIFF" ∧
    resolved_format "noext" none = "png" ∧
    resolved_format "a/b.GIF" none = ext_of "a/b.GIF" := by
  refine ⟨(other_format_save sampleImage "img.gif" none 95).1
      (by decide) (by decide) (by decide),
    (other_format_save sampleImage "whatever" (some "TIFF") 95).2.1 "TIFF",
    (other_format_save sampleImage "noext" none 95).2.2.1 (by decide),
    (other_format_save sampleImage "a/b.GIF" none 95).2.2.2 (by decide)⟩

/-- C9: through the PNG branch of the save path the pixel data is written
unmodified, so encoding then decoding the saved file reproduces a
pixel-identical image (PNG losslessness is modelled from the spec). -/
theorem png_branch_roundtrip (image : Image) (path : String)
    (o : Option String) (q : Nat)
    (h : lower (resolved_format path o) = "png") :
    (decode_and_save_image image path o q).image = image ∧
    decodePNG (encodePNG ((decode_and_save_image image path o q).image)) = image := by
  have h1 : ¬ lower (resolved_format path o) = "webp" := by rw [h]; decide
  have h23 : ¬ (lower (resolved_format path o) = "jpg" ∨
      lower (resolved_format path o) = "jpeg") := by
    rw [h]; decide
  simp only [decode_and_save_image, if_neg h1, if_neg h23]
  exact ⟨trivial, rfl⟩

/-- Witness for C9 on a concrete payload saved to `pic.png`. -/
theorem png_branch_roundtrip_witness :
    (decode_and_save_image sampleImage "pic.png" none 88).image = sampleImage ∧
    decodePNG (encodePNG ((decode_and_save_image sampleImage "pic.png" none 88).image))
      = sampleImage :=
  png_branch_roundtrip sampleImage "pic.png" none 88 (by decide)

/-- C10: when exactly one of `--type` and `--slug` is truthy, the program
behaves exactly as custom-path mode (as if neither were given): it exits 1
when the positional prompt or output is missing, and otherwise writes to the
positional output path — no mode-conflict error exists. -/
theorem single_flag_falls_back (api : GenerationBody → ApiResult) (args : Args)
    (h : pythonTruthy args.type ≠ pythonTruthy args.slug) :
    main_run api args = main_run api { args with type := none, slug := none } ∧
    ((pythonTruthy args.prompt = false ∨ pythonTruthy args.output = false) →
      (main_run api args).exitCode = some 1 ∧ (main_run api args).effects = []) ∧
    (∀ f : SavedFile, Effect.write f ∈ (main_run api args).effects →
      f.path = args.output.getD "") := by
  have hc : (pythonTruthy args.type && pythonTruthy args.slug) = false := by
    cases ht : pythonTruthy args.type <;> cases hs : pythonTruthy args.slug <;>
      simp_all
  refine ⟨?_, ?_, ?_⟩
  · unfold main_run
    rw [hc]
    simp [show pythonTruthy none = false from rfl]
  · intro hpo
    unfold main_run
    rw [hc]
    rcases hpo with hp | hp <;> rw [hp] <;> simp
  · intro f hf
    unfold main_run at hf
    rw [hc] at hf
    by_cases hp : pythonTruthy args.prompt = true
    · by_cases ho : pythonTruthy args.output = true
      · rw [hp, ho] at hf
        have hf2 : Effect.write f ∈ (generate_image api (args.prompt.getD "")
            (args.output.getD "") args.size args.quality none).effects := hf
        obtain ⟨img, rfl⟩ := generate_image_write_mem api (args.prompt.getD "")
          (args.output.getD "") args.size args.quality none f hf2
        exact decode_and_save_image_path img _ _ _
      · have ho2 : pythonTruthy args.output = false := by simpa using ho
        rw [hp, ho2] at hf
        have hf2 : Effect.write f ∈ ([] : List Effect) := hf
        simp at hf2
    · have hp2 : pythonTruthy args.prompt = false := by simpa using hp
      rw [hp2] at hf
      have hf2 : Effect.write f ∈ ([] : List Effect) := hf
      simp at hf2

/-- Witness for C10: `--type tips` with no `--slug` falls back to custom-path
mode; with prompt and output present the file is written to the positional
output path, and with the output missing the run exits 1. -/
theorem single_flag_falls_back_witness :
    main_run sampleApi
        { prompt := some "p", output := some "out.png", type := some "tips"
          slug := none, size := "1536x1024", quality := "high" } =
      main_run sampleApi
        { prompt := some "p", output := some "out.png", type := none
          slug := none, size := "1536x1024", quality := "high" } ∧
    (decode_and_save_image sampleImage "out.png" (some "png") 95).path = "out.png" ∧
    (main_run sampleApi
        { prompt := some "p", output := none, type := some "tips"
          slug := none, size := "1536x1024", quality := "high" }).exitCode = some 1 := by
  refine ⟨?_, ?_, ?_⟩
  · exact (single_flag_falls_back sampleApi
      { prompt := some "p", output := some "out.png", type := some "tips"
        slug := none, size := "1536x1024", quality := "high" } (by decide)).1
  · exact (single_flag_falls_back sampleApi
      { prompt := some "p", output := some "out.png", type := some "tips"
        slug := none, size := "1536x1024", quality := "high" } (by decide)).2.2
      (decode_and_save_image sampleImage "out.png" (some "png") 95) (by decide)
  · exact ((single_flag_falls_back sampleApi
      { prompt := some "p", output := none, type := some "tips"
        slug := none, size := "1536x1024", quality := "high" } (by decide)).2.1
      (Or.inr (by decide))).1

end HeroImage
